import Mathlib

/-!
Shallow embedding of the SinoLink single-page language-learning client:
the view-state machine of the App component (its mutable state and the
event handlers that drive it) and the Model Gateway (`geminiService`)
operations the handlers call.  Backend responses are modelled as explicit
arguments (`FetchResult`), since the external generative-model service is
out of scope; everything the client itself computes is embedded from the
source.
-/

namespace SinoLink

/-- A vocabulary entry (types.ts `Word`, plus the `isSelected` flag used by
the App's vocabulary list). -/
structure Word where
  word : String
  pinyin : String
  meaning : String
  culturalNote : Option String := none
  proficiency : Int := 0
  category : Option String := none
  isFavorite : Bool := false
  isSelected : Bool := false
deriving DecidableEq, Repr, Inhabited

/-- One decomposed radical of an etymology (`components` items); `imageUrl`
is absent in the parsed backend response and only attached by the dependent
image-generation loop. -/
structure EtyComponent where
  char : String
  meaning : String
  imageUrl : Option String := none
deriving DecidableEq, Repr, Inhabited

/-- types.ts `Etymology`. -/
structure Etymology where
  components : List EtyComponent
  culturalContext : String
deriving DecidableEq, Repr, Inhabited

/-- One line of a review dialogue as returned by `getReviewDialogue`;
`hintImageUrl` is absent in the parsed response and only attached by the
dependent image-generation loop. -/
structure DialogueLine where
  speaker : String
  text : String
  pinyin : Option String := none
  translation : Option String := none
  blankWord : Option String := none
  hintImagePrompt : Option String := none
  hintImageUrl : Option String := none
deriving DecidableEq, Repr, Inhabited

/-- The review payload (`reviewData`): scenario text plus dialogue lines. -/
structure ReviewData where
  scenario : String
  dialogue : List DialogueLine
deriving DecidableEq, Repr, Inhabited

/-- types.ts `PageType`: the six page identifiers. -/
inductive PageType where
  | recommendation
  | etymology
  | vocabulary
  | dialogue
  | translation
  | recognition
deriving DecidableEq, Repr, Inhabited

/-- Outcome of one backend round trip: the parsed payload, or a thrown
error (network failure or malformed response). -/
inductive FetchResult (α : Type) where
  | ok (a : α)
  | err
deriving DecidableEq, Repr

/-- The App component's mutable state: one field per `useState` hook.
`reviewAnswers` (a `Record<number, string>`) is modelled as an association
list from line index to submitted word, newest binding first. -/
structure AppState where
  activePage : PageType := .recommendation
  nativeLang : String := "English"
  level : String := "HSK 3"
  loading : Bool := false
  recommendedWords : List Word := []
  currentEtymology : Option (String × Etymology) := none
  vocabulary : List Word := []
  reviewData : Option ReviewData := none
  reviewAnswers : List (Nat × String) := []
  reviewStep : Nat := 0
  chatHistory : List (String × String) := []
  imageResult : Option String := none
  capturedImage : Option String := none
deriving DecidableEq, Repr, Inhabited

/-- One request issued to the Model Gateway, tagged with the arguments the
view layer passes. -/
inductive GatewayCall where
  | recommend (nativeLanguage : String) (level : String)
  | etymology (word : String)
  | reviewDialogue (selectedWords : List Word)
  | speech (text : String)
  | chat (history : List (String × String)) (userInput : String)
  | image (base64 : String)
deriving DecidableEq, Repr

/-- The vocabulary seeded at session start (the `useState` initializer of
`vocabulary` in the App). -/
def initialVocabulary : List Word :=
  [ { word := "发票", pinyin := "Fā piào", meaning := "Receipt / Invoice",
      proficiency := 45, category := some "Business", isFavorite := true, isSelected := true },
    { word := "登机牌", pinyin := "Dēng jī pái", meaning := "Boarding Pass",
      proficiency := 80, category := some "Travel", isFavorite := false, isSelected := true },
    { word := "矛盾", pinyin := "Máo dùn", meaning := "Contradiction",
      proficiency := 65, category := some "General", isFavorite := false, isSelected := true },
    { word := "内卷", pinyin := "Nèi juǎn", meaning := "Involution",
      proficiency := 20, category := some "Culture", isFavorite := true, isSelected := true },
    { word := "咖啡", pinyin := "Kā fēi", meaning := "Coffee",
      proficiency := 95, category := some "Daily", isFavorite := false, isSelected := true } ]

/-- The state right after mounting the App: every `useState` initializer. -/
def initialState : AppState :=
  { vocabulary := initialVocabulary }

/-! ## Model Gateway (`geminiService`) -/

/-- JavaScript string truthiness of an optional string field (`undefined`
and the empty string are falsy). -/
def strTruthy : Option String → Bool
  | none => false
  | some s => s != ""

/-- `getVocabularyRecommendations`: the parsed JSON array is returned to
the caller as-is — no local validation of fields or ranges. -/
def getVocabularyRecommendations (parsed : List Word) : List Word :=
  parsed

/-- One iteration of the per-component image loop in `getEtymology`: on a
successful generation carrying inline data the component's `imageUrl` is
set; on failure (caught and logged) or absent inline data the component is
left as parsed. -/
def attachComponentImage (c : EtyComponent) (img : Option String) : EtyComponent :=
  match img with
  | some d => { c with imageUrl := some d }
  | none => c

/-- The sequential per-component image loop of `getEtymology`; `imgs` gives
each component's generation outcome in order (`none` = failed or declined). -/
def attachImages : List EtyComponent → List (Option String) → List EtyComponent
  | [], _ => []
  | c :: cs, [] => attachComponentImage c none :: attachImages cs []
  | c :: cs, o :: os => attachComponentImage c o :: attachImages cs os

/-- `getEtymology` after the primary parse succeeded: run the dependent
image loop over the components and deliver the parent object. -/
def getEtymology (parsed : Etymology) (imgs : List (Option String)) : Etymology :=
  { parsed with components := attachImages parsed.components imgs }

/-- `getEtymology` including the primary call: a failed or malformed
primary response throws to the caller; dependent image failures never do. -/
def getEtymologyRun (r : FetchResult Etymology) (imgs : List (Option String)) :
    Except Unit Etymology :=
  match r with
  | .ok parsed => .ok (getEtymology parsed imgs)
  | .err => .error ()

/-- One iteration of the per-line hint-image loop in `getReviewDialogue`:
the dependent call is attempted only when the line has a truthy `blankWord`
and `hintImagePrompt`; on failure the line is left as parsed. -/
def attachHintImage (line : DialogueLine) (img : Option String) : DialogueLine :=
  if strTruthy line.blankWord && strTruthy line.hintImagePrompt then
    match img with
    | some d => { line with hintImageUrl := some d }
    | none => line
  else line

/-- The sequential per-line hint-image loop of `getReviewDialogue`. -/
def attachHints : List DialogueLine → List (Option String) → List DialogueLine
  | [], _ => []
  | l :: ls, [] => attachHintImage l none :: attachHints ls []
  | l :: ls, o :: os => attachHintImage l o :: attachHints ls os

/-- `getReviewDialogue` after the primary parse succeeded: run the
dependent hint-image loop and deliver the parent object. -/
def getReviewDialogue (parsed : ReviewData) (imgs : List (Option String)) : ReviewData :=
  { parsed with dialogue := attachHints parsed.dialogue imgs }

/-- `getReviewDialogue` including the primary call. -/
def getReviewDialogueRun (r : FetchResult ReviewData) (imgs : List (Option String)) :
    Except Unit ReviewData :=
  match r with
  | .ok parsed => .ok (getReviewDialogue parsed imgs)
  | .err => .error ()

/-- The word list `getReviewDialogue` interpolates into its prompt. -/
def reviewWordList (selectedWords : List Word) : String :=
  String.intercalate ", " (selectedWords.map (fun w => w.word))

/-! ## View State Machine: event handlers -/

/-- `fetchRecommendations`: final state once the gateway call resolved with
`r` (success stores the parsed list; failure is caught; `finally` clears
the loading flag either way). -/
def fetchRecommendations (s : AppState) (r : FetchResult (List Word)) : AppState :=
  match r with
  | .ok ws => { s with recommendedWords := getVocabularyRecommendations ws, loading := false }
  | .err => { s with loading := false }

/-- The state while the `fetchRecommendations` gateway call is in flight
(after `setLoading(true)`, before the `await` resolves). -/
def fetchRecommendationsDuring (s : AppState) : AppState :=
  { s with loading := true }

/-- The gateway calls `fetchRecommendations` issues. -/
def fetchRecommendationsCalls (s : AppState) : List GatewayCall :=
  [.recommend s.nativeLang s.level]

/-- `fetchEtymology word`: success stores the result and moves to the
etymology page; failure is caught and only the loading flag is cleared. -/
def fetchEtymology (s : AppState) (word : String) (r : FetchResult Etymology) : AppState :=
  match r with
  | .ok d => { s with currentEtymology := some (word, d), activePage := .etymology,
                      loading := false }
  | .err => { s with loading := false }

/-- The state while the `fetchEtymology` gateway call is in flight. -/
def fetchEtymologyDuring (s : AppState) : AppState :=
  { s with loading := true }

/-- Clicking recommended entry `i` invokes `fetchEtymology(w.word)` for
that entry's word — these are the gateway calls it triggers. -/
def recommendationEntryClickCalls (s : AppState) (i : Nat) : List GatewayCall :=
  match s.recommendedWords[i]? with
  | some w => [.etymology w.word]
  | none => []

/-- `vocabulary.filter(w => w.isSelected)`: the pool a targeted review is
built from. -/
def selectedPool (s : AppState) : List Word :=
  s.vocabulary.filter (fun w => w.isSelected)

/-- `startTargetedReview`: with an empty selection it returns before doing
anything; otherwise success installs the fresh review session and moves to
the dialogue page, failure is caught, and `finally` clears the flag. -/
def startTargetedReview (s : AppState) (r : FetchResult ReviewData) : AppState :=
  if selectedPool s = [] then s
  else
    match r with
    | .ok d => { s with reviewData := some d, reviewAnswers := [], reviewStep := 0,
                        activePage := .dialogue, loading := false }
    | .err => { s with loading := false }

/-- The gateway calls `startTargetedReview` issues. -/
def startTargetedReviewCalls (s : AppState) : List GatewayCall :=
  if selectedPool s = [] then []
  else [.reviewDialogue (selectedPool s)]

/-- The state while the `getReviewDialogue` call is in flight (only
reached when the selection is non-empty). -/
def startTargetedReviewDuring (s : AppState) : AppState :=
  { s with loading := true }

/-- `playTTS`: plays the returned audio; it touches no component state and
never sets the loading flag; failures are caught and logged. -/
def playTTS (s : AppState) (r : FetchResult (Option String)) : AppState :=
  match r with
  | .ok _ => s
  | .err => s

/-- The state while the `generateSpeech` call is in flight: `playTTS` does
not set the loading flag, so the state is unchanged. -/
def playTTSDuring (s : AppState) : AppState :=
  s

/-- `handleImageUpload` after the file was read: the captured preview is
stored before the call, then the loading flag wraps the `analyzeImage`
call; failure is caught and leaves the preview in place. -/
def handleImageUpload (s : AppState) (dataUrl : String) (r : FetchResult String) : AppState :=
  let s1 := { s with capturedImage := some dataUrl }
  match r with
  | .ok res => { s1 with imageResult := some res, loading := false }
  | .err => { s1 with loading := false }

/-- The state while the `analyzeImage` call is in flight. -/
def handleImageUploadDuring (s : AppState) (dataUrl : String) : AppState :=
  { s with capturedImage := some dataUrl, loading := true }

/-- The free-chat input `onKeyDown` handler (Enter with non-empty text):
the user turn is appended immediately; the `getDialogueResponse` call is
awaited with NO try/catch, so on success the assistant turn is appended,
and on failure the rejection escapes the handler.  The `Bool` records
whether an error propagated out of the handler. -/
def handleChatKeyDown (s : AppState) (val : String) (r : FetchResult String) :
    AppState × Bool :=
  let s1 := { s with chatHistory := s.chatHistory ++ [("user", val)] }
  match r with
  | .ok resp => ({ s1 with chatHistory := s1.chatHistory ++ [("ai", resp)] }, false)
  | .err => (s1, true)

/-- The state while the `getDialogueResponse` call is in flight: the user
turn is already appended; the loading flag is not touched. -/
def handleChatKeyDownDuring (s : AppState) (val : String) : AppState :=
  { s with chatHistory := s.chatHistory ++ [("user", val)] }

/-- Record an answer in the `reviewAnswers` mapping: the JS object spread
`{ ...prev, [i]: w.word }` — the binding for `i` is replaced. -/
def setAnswer (m : List (Nat × String)) (i : Nat) (v : String) : List (Nat × String) :=
  (i, v) :: m.filter (fun p => p.1 != i)

/-- The answer-button `onClick` on review line `i` with candidate word `w`:
record the attempt unconditionally; if `w` equals that line's `blankWord`
and the step index is below the last line, advance the step by one. -/
def submitAnswer (s : AppState) (i : Nat) (w : String) : AppState :=
  match s.reviewData with
  | none => s
  | some rd =>
    match rd.dialogue[i]? with
    | none => s
    | some line =>
      let s1 := { s with reviewAnswers := setAnswer s.reviewAnswers i w }
      if line.blankWord = some w then
        if s.reviewStep < rd.dialogue.length - 1 then
          { s1 with reviewStep := s.reviewStep + 1 }
        else s1
      else s1

/-- A sequence of answer submissions, applied in order. -/
def submitMany (s : AppState) (evts : List (Nat × String)) : AppState :=
  evts.foldl (fun t e => submitAnswer t e.1 e.2) s

/-! ## Concrete fixtures used in witnesses and counterexamples -/

/-- An assistant line of a review dialogue. -/
def exLine0 : DialogueLine :=
  { speaker := "Xiao Tong", text := "你好！欢迎光临。",
    pinyin := some "Nǐ hǎo! Huānyíng guānglín.", translation := some "Hello, welcome." }

/-- A user exercise line whose blank target is 发票. -/
def exLine1 : DialogueLine :=
  { speaker := "User", text := "我要一张____。", blankWord := some "发票",
    hintImagePrompt := some "a paper receipt" }

/-- A user exercise line whose blank target is 矛盾. -/
def exLine2 : DialogueLine :=
  { speaker := "User", text := "这里有点____。", blankWord := some "矛盾",
    hintImagePrompt := some "two arrows clashing" }

/-- A three-line review dialogue. -/
def exReview : ReviewData :=
  { scenario := "At a restaurant", dialogue := [exLine0, exLine1, exLine2] }

/-- A two-line review dialogue. -/
def exReview2 : ReviewData :=
  { scenario := "At the airport", dialogue := [exLine0, exLine1] }

/-- An active review session positioned at line 1. -/
def exReviewState0 : AppState :=
  { initialState with activePage := .dialogue, reviewData := some exReview, reviewStep := 1 }

/-- An active review session positioned at the last line (index 2). -/
def exReviewStateLast : AppState :=
  { initialState with activePage := .dialogue, reviewData := some exReview, reviewStep := 2 }

/-- A vocabulary page on which no Word is selected. -/
def exUnselectedState : AppState :=
  { initialState with
    vocabulary := initialVocabulary.map (fun w => { w with isSelected := false }) }

/-- The spec's example vocabulary [A(selected), B(unselected), C(selected)]. -/
def exABCState : AppState :=
  { initialState with vocabulary :=
      [ { word := "发票", pinyin := "Fā piào", meaning := "Receipt / Invoice",
          proficiency := 45, isSelected := true },
        { word := "登机牌", pinyin := "Dēng jī pái", meaning := "Boarding Pass",
          proficiency := 80, isSelected := false },
        { word := "矛盾", pinyin := "Máo dùn", meaning := "Contradiction",
          proficiency := 65, isSelected := true } ] }

/-- A state carrying stale review progress from a previous session. -/
def exDirtyState : AppState :=
  { initialState with
    activePage := .vocabulary, reviewData := some exReview,
    reviewAnswers := [(1, "咖啡")], reviewStep := 2, loading := true }

/-! ## Helper lemmas -/

/-- Recording an answer makes it the binding looked up for that line. -/
theorem setAnswer_lookup (m : List (Nat × String)) (i : Nat) (v : String) :
    (setAnswer m i v).lookup i = some v := by
  simp [setAnswer, List.lookup]

/-! ## Claims -/

/-- Claim C1 is false as stated: at the last line of the dialogue,
submitting the correct blank word records the answer but does NOT advance
the step index (the advance is capped), so a correct submission does not
always advance the step by exactly one. -/
theorem correct_answer_at_last_line_does_not_advance :
    (exReview.dialogue[2]? = some exLine2 ∧ exLine2.blankWord = some "矛盾" ∧
      exReviewStateLast.reviewStep = 2 ∧ exReview.dialogue.length - 1 = 2) ∧
    (submitAnswer exReviewStateLast 2 "矛盾").reviewStep = 2 ∧
    ¬ (submitAnswer exReviewStateLast 2 "矛盾").reviewStep
        = exReviewStateLast.reviewStep + 1 := by
  decide

/-- Claim C1 (amended): every answer submission on a review exercise line
records the submitted word as that line's answer; if the submitted word
equals that line's blank target and the step index is below the last line,
the step advances by exactly one; a correct submission at the last line
leaves the step unchanged (capped); any other word leaves the step
unchanged. -/
theorem review_answer_transition (s : AppState) (rd : ReviewData) (line : DialogueLine)
    (i : Nat) (w : String)
    (hrd : s.reviewData = some rd) (hline : rd.dialogue[i]? = some line) :
    ((submitAnswer s i w).reviewAnswers).lookup i = some w ∧
    (line.blankWord = some w → s.reviewStep < rd.dialogue.length - 1 →
      (submitAnswer s i w).reviewStep = s.reviewStep + 1) ∧
    (line.blankWord = some w → ¬ s.reviewStep < rd.dialogue.length - 1 →
      (submitAnswer s i w).reviewStep = s.reviewStep) ∧
    (line.blankWord ≠ some w → (submitAnswer s i w).reviewStep = s.reviewStep) := by
  simp only [submitAnswer, hrd, hline]
  by_cases hb : line.blankWord = some w
  · by_cases hs : s.reviewStep < rd.dialogue.length - 1
    · simp [hb, hs, setAnswer_lookup]
    · simp [hb, hs, setAnswer_lookup]
  · simp [hb, setAnswer_lookup]

/-- Witness for the amended C1 theorem at a concrete session. -/
theorem review_answer_transition_witness :
    ((submitAnswer exReviewState0 1 "发票").reviewAnswers).lookup 1 = some "发票" ∧
    (submitAnswer exReviewState0 1 "发票").reviewStep = exReviewState0.reviewStep + 1 := by
  refine ⟨?_, ?_⟩
  · exact (review_answer_transition exReviewState0 exReview exLine1 1 "发票" rfl rfl).1
  · exact (review_answer_transition exReviewState0 exReview exLine1 1 "发票" rfl rfl).2.1
      (by decide) (by decide)

/-- Claim C5: starting a targeted review with zero selected Words is a
no-op — the state is returned unchanged for every possible backend
outcome, and no gateway call is issued. -/
theorem start_review_no_selection_noop (s : AppState) (hsel : selectedPool s = []) :
    (∀ r : FetchResult ReviewData, startTargetedReview s r = s) ∧
    startTargetedReviewCalls s = [] := by
  constructor
  · intro r; simp [startTargetedReview, hsel]
  · simp [startTargetedReviewCalls, hsel]

/-- Witness for C5 on a vocabulary page with every Word unselected. -/
theorem start_review_no_selection_noop_witness :
    selectedPool exUnselectedState = [] ∧
    startTargetedReview exUnselectedState .err = exUnselectedState ∧
    startTargetedReviewCalls exUnselectedState = [] := by
  refine ⟨by decide, ?_, ?_⟩
  · exact (start_review_no_selection_noop exUnselectedState (by decide)).1 .err
  · exact (start_review_no_selection_noop exUnselectedState (by decide)).2

/-- Claim C6: the pool passed to the dialogue-generation call is exactly
the selected subset of the vocabulary, in vocabulary order: every pooled
Word is selected, the pool is a sublist of the vocabulary (order
preserved), every selected Word is in the pool, and when non-empty that
pool is precisely the argument of the single review-dialogue call. -/
theorem review_pool_exactly_selected (s : AppState) :
    (∀ w ∈ selectedPool s, w.isSelected = true) ∧
    List.Sublist (selectedPool s) s.vocabulary ∧
    (∀ w ∈ s.vocabulary, w.isSelected = true → w ∈ selectedPool s) ∧
    (selectedPool s ≠ [] →
      startTargetedReviewCalls s = [.reviewDialogue (selectedPool s)]) := by
  refine ⟨?_, ?_, ?_, ?_⟩
  · intro w hw; exact (List.mem_filter.mp hw).2
  · exact List.filter_sublist s.vocabulary
  · intro w hw hsel; exact List.mem_filter.mpr ⟨hw, hsel⟩
  · intro h; simp [startTargetedReviewCalls, h]

/-- Witness for C6 on the spec's example vocabulary [A(sel), B(unsel),
C(sel)]. -/
theorem review_pool_exactly_selected_witness :
    List.Sublist (selectedPool exABCState) exABCState.vocabulary ∧
    startTargetedReviewCalls exABCState = [.reviewDialogue (selectedPool exABCState)] := by
  exact ⟨(review_pool_exactly_selected exABCState).2.1,
         (review_pool_exactly_selected exABCState).2.2.2 (by decide)⟩

/-- Claim C10: a successful `startTargetedReview` installs a fully reset
session — step index 0, empty answer mapping, the new dialogue data, the
dialogue page active — regardless of any progress in the prior state. -/
theorem start_review_resets (s : AppState) (d : ReviewData) (hsel : selectedPool s ≠ []) :
    startTargetedReview s (.ok d) =
      { s with reviewData := some d, reviewAnswers := [], reviewStep := 0,
               activePage := .dialogue, loading := false } := by
  simp [startTargetedReview, hsel]

/-- Witness for C10 from a state carrying stale progress. -/
theorem start_review_resets_witness :
    selectedPool exDirtyState ≠ [] ∧
    (startTargetedReview exDirtyState (.ok exReview2)).reviewStep = 0 ∧
    (startTargetedReview exDirtyState (.ok exReview2)).reviewAnswers = [] ∧
    (startTargetedReview exDirtyState (.ok exReview2)).activePage = .dialogue ∧
    (startTargetedReview exDirtyState (.ok exReview2)).reviewData = some exReview2 := by
  have h := start_review_resets exDirtyState exReview2 (by decide)
  exact ⟨by decide, by rw [h], by rw [h], by rw [h], by rw [h]⟩

/-- Every submission takes one of three shapes: identity (no session or no
such line), answer recorded without advancing, or answer recorded with the
step advanced by one under the in-range guard. -/
theorem submitAnswer_cases (s : AppState) (i : Nat) (w : String) :
    submitAnswer s i w = s ∨
    submitAnswer s i w = { s with reviewAnswers := setAnswer s.reviewAnswers i w } ∨
    (submitAnswer s i w =
       { s with reviewAnswers := setAnswer s.reviewAnswers i w,
                reviewStep := s.reviewStep + 1 } ∧
     ∃ rd, s.reviewData = some rd ∧ s.reviewStep < rd.dialogue.length - 1) := by
  cases hrd : s.reviewData with
  | none => left; simp [submitAnswer, hrd]
  | some rd =>
    cases hline : rd.dialogue[i]? with
    | none => left; simp [submitAnswer, hrd, hline]
    | some line =>
      by_cases hb : line.blankWord = some w
      · by_cases hs : s.reviewStep < rd.dialogue.length - 1
        · right; right
          constructor
          · simp [submitAnswer, hrd, hline, hb, hs]
          · exact ⟨rd, rfl, hs⟩
        · right; left; simp [submitAnswer, hrd, hline, hb, hs]
      · right; left; simp [submitAnswer, hrd, hline, hb]

/-- Submitting an answer never changes the installed review data. -/
theorem submitAnswer_reviewData (s : AppState) (i : Nat) (w : String) :
    (submitAnswer s i w).reviewData = s.reviewData := by
  rcases submitAnswer_cases s i w with h | h | ⟨h, _⟩ <;> rw [h]

/-- The step index never decreases across a submission. -/
theorem submitAnswer_step_mono (s : AppState) (i : Nat) (w : String) :
    s.reviewStep ≤ (submitAnswer s i w).reviewStep := by
  rcases submitAnswer_cases s i w with h | h | ⟨h, _⟩ <;> rw [h]
  · exact Nat.le_succ _

/-- The step index stays at most `length - 1` across a submission. -/
theorem submitAnswer_step_bound (s : AppState) (rd : ReviewData) (i : Nat) (w : String)
    (hrd : s.reviewData = some rd) (hb : s.reviewStep ≤ rd.dialogue.length - 1) :
    (submitAnswer s i w).reviewStep ≤ rd.dialogue.length - 1 := by
  rcases submitAnswer_cases s i w with h | h | ⟨h, rd', hrd', hs⟩
  · rw [h]; exact hb
  · rw [h]; exact hb
  · rw [h]
    rw [hrd] at hrd'
    cases hrd'
    show s.reviewStep + 1 ≤ rd.dialogue.length - 1
    omega

/-- Unfolding one submission off a sequence. -/
theorem submitMany_cons (s : AppState) (e : Nat × String) (evts : List (Nat × String)) :
    submitMany s (e :: evts) = submitMany (submitAnswer s e.1 e.2) evts :=
  rfl

/-- The review data and the step bound are preserved by any submission
sequence. -/
theorem submitMany_inv (evts : List (Nat × String)) (s : AppState) (rd : ReviewData)
    (hrd : s.reviewData = some rd) (hb : s.reviewStep ≤ rd.dialogue.length - 1) :
    (submitMany s evts).reviewData = some rd ∧
    (submitMany s evts).reviewStep ≤ rd.dialogue.length - 1 := by
  induction evts generalizing s with
  | nil => exact ⟨hrd, hb⟩
  | cons e rest ih =>
    rw [submitMany_cons]
    have h1 : (submitAnswer s e.1 e.2).reviewData = some rd := by
      rw [submitAnswer_reviewData]; exact hrd
    exact ih (submitAnswer s e.1 e.2) h1 (submitAnswer_step_bound s rd e.1 e.2 hrd hb)

/-- The step index never decreases across any submission sequence. -/
theorem submitMany_mono (evts : List (Nat × String)) (s : AppState) :
    s.reviewStep ≤ (submitMany s evts).reviewStep := by
  induction evts generalizing s with
  | nil => exact le_rfl
  | cons e rest ih =>
    rw [submitMany_cons]
    exact le_trans (submitAnswer_step_mono s e.1 e.2) (ih _)

/-- Claim C2: after starting a review over a non-empty dialogue, every
reachable state (any sequence of answer submissions) keeps the same review
data, keeps the step index within [0, length-1] (strictly below the
dialogue length), and the step index never decreases under any further
submissions. -/
theorem review_step_invariant (s0 : AppState) (d : ReviewData)
    (evts : List (Nat × String))
    (hsel : selectedPool s0 ≠ []) (hne : d.dialogue ≠ []) :
    (submitMany (startTargetedReview s0 (.ok d)) evts).reviewData = some d ∧
    (submitMany (startTargetedReview s0 (.ok d)) evts).reviewStep
      ≤ d.dialogue.length - 1 ∧
    (submitMany (startTargetedReview s0 (.ok d)) evts).reviewStep < d.dialogue.length ∧
    (∀ more : List (Nat × String),
      (submitMany (startTargetedReview s0 (.ok d)) evts).reviewStep ≤
        (submitMany (submitMany (startTargetedReview s0 (.ok d)) evts) more).reviewStep) := by
  have hstart : startTargetedReview s0 (.ok d) =
      { s0 with reviewData := some d, reviewAnswers := [], reviewStep := 0,
                activePage := .dialogue, loading := false } := by
    simp [startTargetedReview, hsel]
  have h1 : (startTargetedReview s0 (.ok d)).reviewData = some d := by rw [hstart]
  have h2 : (startTargetedReview s0 (.ok d)).reviewStep = 0 := by rw [hstart]
  have hinv := submitMany_inv evts _ d h1 (by rw [h2]; exact Nat.zero_le _)
  have hlen : d.dialogue.length ≠ 0 := by
    intro h0
    exact hne (List.length_eq_zero.mp h0)
  exact ⟨hinv.1, hinv.2, by omega, fun more => submitMany_mono more _⟩

/-- Witness for C2 on a concrete session and submission sequence. -/
theorem review_step_invariant_witness :
    selectedPool initialState ≠ [] ∧ exReview.dialogue ≠ [] ∧
    (submitMany (startTargetedReview initialState (.ok exReview))
        [(1, "登机牌"), (1, "发票"), (2, "矛盾")]).reviewStep
      ≤ exReview.dialogue.length - 1 := by
  refine ⟨by decide, by decide, ?_⟩
  exact (review_step_invariant initialState exReview [(1, "登机牌"), (1, "发票"), (2, "矛盾")]
    (by decide) (by decide)).2.1

/-- Claim C3 is false as stated: neither the speech-synthesis handler
(`playTTS`) nor the free-chat continuation sets the shared loading flag —
from a non-loading state, the flag is still false while those gateway
calls are in flight. -/
theorem loading_flag_not_set_for_tts_and_chat :
    initialState.loading = false ∧
    (playTTSDuring initialState).loading = false ∧
    (handleChatKeyDownDuring initialState "你好").loading = false := by
  decide

/-- Claim C3 (amended): the shared loading flag is true while a
recommendation, etymology, review-dialogue or image-analysis call is in
flight and false once the handler finishes, on success or failure alike;
the speech-synthesis and free-chat handlers never touch the flag. -/
theorem loading_flag_discipline (s : AppState) (word dataUrl val : String)
    (rrec : FetchResult (List Word)) (rety : FetchResult Etymology)
    (rrev : FetchResult ReviewData) (rimg : FetchResult String)
    (rtts : FetchResult (Option String)) (rchat : FetchResult String)
    (hsel : selectedPool s ≠ []) :
    (fetchRecommendationsDuring s).loading = true ∧
    (fetchRecommendations s rrec).loading = false ∧
    (fetchEtymologyDuring s).loading = true ∧
    (fetchEtymology s word rety).loading = false ∧
    (startTargetedReviewDuring s).loading = true ∧
    (startTargetedReview s rrev).loading = false ∧
    (handleImageUploadDuring s dataUrl).loading = true ∧
    (handleImageUpload s dataUrl rimg).loading = false ∧
    (playTTSDuring s).loading = s.loading ∧
    (playTTS s rtts).loading = s.loading ∧
    (handleChatKeyDownDuring s val).loading = s.loading ∧
    ((handleChatKeyDown s val rchat).1).loading = s.loading := by
  refine ⟨rfl, ?_, rfl, ?_, rfl, ?_, rfl, ?_, rfl, ?_, rfl, ?_⟩
  · cases rrec <;> rfl
  · cases rety <;> rfl
  · cases rrev <;> simp [startTargetedReview, hsel]
  · cases rimg <;> rfl
  · cases rtts <;> rfl
  · cases rchat <;> rfl

/-- Witness for the amended C3 theorem at the initial state. -/
theorem loading_flag_discipline_witness :
    selectedPool initialState ≠ [] ∧
    (fetchRecommendationsDuring initialState).loading = true ∧
    (startTargetedReview initialState .err).loading = false := by
  refine ⟨by decide, ?_, ?_⟩
  · exact (loading_flag_discipline initialState "矛盾" "data:image/png;base64,x" "你好"
      .err .err .err .err .err .err (by decide)).1
  · exact (loading_flag_discipline initialState "矛盾" "data:image/png;base64,x" "你好"
      .err .err .err .err .err .err (by decide)).2.2.2.2.2.1

/-- Claim C4 is false as stated: a failure of the free-chat continuation
is not caught at the call site — the rejection escapes the handler — and
the user turn appended before the call remains, so prior view state is not
left unchanged. -/
theorem chat_failure_escapes_handler :
    (handleChatKeyDown initialState "你好" .err).2 = true ∧
    (handleChatKeyDown initialState "你好" .err).1.chatHistory = [("user", "你好")] ∧
    initialState.chatHistory = [] := by
  decide

/-- Claim C4 (amended): failures of the recommendation, etymology,
review-dialogue and speech calls are caught at the call site and leave the
state unchanged except that the loading flag is cleared; an image-analysis
failure is caught and clears the flag but the preview captured before the
call remains; the free-chat continuation does not catch failures — the
rejection propagates out of the handler and the appended user turn
remains. -/
theorem primary_failure_handling (s : AppState) (word dataUrl val : String)
    (hsel : selectedPool s ≠ []) :
    fetchRecommendations s .err = { s with loading := false } ∧
    fetchEtymology s word .err = { s with loading := false } ∧
    startTargetedReview s .err = { s with loading := false } ∧
    playTTS s .err = s ∧
    handleImageUpload s dataUrl .err =
      { s with capturedImage := some dataUrl, loading := false } ∧
    (handleChatKeyDown s val .err).2 = true ∧
    (handleChatKeyDown s val .err).1 =
      { s with chatHistory := s.chatHistory ++ [("user", val)] } := by
  refine ⟨rfl, rfl, ?_, rfl, rfl, rfl, rfl⟩
  simp [startTargetedReview, hsel]

/-- Witness for the amended C4 theorem at the initial state. -/
theorem primary_failure_handling_witness :
    selectedPool initialState ≠ [] ∧
    startTargetedReview initialState .err = { initialState with loading := false } ∧
    (handleChatKeyDown initialState "你好" .err).2 = true := by
  refine ⟨by decide, ?_, ?_⟩
  · exact (primary_failure_handling initialState "字" "d" "你好" (by decide)).2.2.1
  · exact (primary_failure_handling initialState "字" "d" "你好" (by decide)).2.2.2.2.2.1

/-- A failed or skipped image generation leaves the component as parsed. -/
theorem attachComponentImage_none (c : EtyComponent) :
    attachComponentImage c none = c :=
  rfl

/-- A failed or skipped hint generation leaves the line as parsed. -/
theorem attachHintImage_none (l : DialogueLine) :
    attachHintImage l none = l := by
  unfold attachHintImage
  split <;> rfl

/-- The image loop touches each component with its own outcome only. -/
theorem attachImages_getElem? (comps : List EtyComponent) (imgs : List (Option String))
    (i : Nat) :
    (attachImages comps imgs)[i]? =
      (comps[i]?).map (fun c => attachComponentImage c (imgs.getD i none)) := by
  induction comps generalizing imgs i with
  | nil => simp [attachImages]
  | cons c0 cs ih =>
    cases imgs with
    | nil =>
      cases i with
      | zero => simp [attachImages]
      | succ n =>
        simp only [attachImages, List.getElem?_cons_succ]
        rw [ih [] n]
        simp
    | cons o os =>
      cases i with
      | zero => simp [attachImages]
      | succ n =>
        simp only [attachImages, List.getElem?_cons_succ, List.getD_cons_succ]
        exact ih os n

/-- The image loop preserves the number of components. -/
theorem attachImages_length (comps : List EtyComponent) (imgs : List (Option String)) :
    (attachImages comps imgs).length = comps.length := by
  induction comps generalizing imgs with
  | nil => simp [attachImages]
  | cons c0 cs ih =>
    cases imgs with
    | nil => simp [attachImages, ih]
    | cons o os => simp [attachImages, ih]

/-- The hint loop touches each line with its own outcome only. -/
theorem attachHints_getElem? (lines : List DialogueLine) (imgs : List (Option String))
    (i : Nat) :
    (attachHints lines imgs)[i]? =
      (lines[i]?).map (fun l => attachHintImage l (imgs.getD i none)) := by
  induction lines generalizing imgs i with
  | nil => simp [attachHints]
  | cons l0 ls ih =>
    cases imgs with
    | nil =>
      cases i with
      | zero => simp [attachHints]
      | succ n =>
        simp only [attachHints, List.getElem?_cons_succ]
        rw [ih [] n]
        simp
    | cons o os =>
      cases i with
      | zero => simp [attachHints]
      | succ n =>
        simp only [attachHints, List.getElem?_cons_succ, List.getD_cons_succ]
        exact ih os n

/-- The hint loop preserves the number of lines. -/
theorem attachHints_length (lines : List DialogueLine) (imgs : List (Option String)) :
    (attachHints lines imgs).length = lines.length := by
  induction lines generalizing imgs with
  | nil => simp [attachHints]
  | cons l0 ls ih =>
    cases imgs with
    | nil => simp [attachHints, ih]
    | cons o os => simp [attachHints, ih]

/-- Claim C7: once the primary parse succeeded, the etymology and
review-dialogue operations always deliver the parent object no matter how
the dependent per-item image calls fared; the text payload and item count
are preserved, and every item whose dependent call failed is delivered
exactly as parsed, its optional image field still absent. -/
theorem dependent_image_failure_nonfatal (parsedE : Etymology)
    (imgsE : List (Option String)) (parsedR : ReviewData)
    (imgsR : List (Option String)) :
    (getEtymologyRun (.ok parsedE) imgsE = .ok (getEtymology parsedE imgsE) ∧
     (getEtymology parsedE imgsE).culturalContext = parsedE.culturalContext ∧
     (getEtymology parsedE imgsE).components.length = parsedE.components.length ∧
     (∀ i c, parsedE.components[i]? = some c → imgsE.getD i none = none →
       (getEtymology parsedE imgsE).components[i]? = some c)) ∧
    (getReviewDialogueRun (.ok parsedR) imgsR = .ok (getReviewDialogue parsedR imgsR) ∧
     (getReviewDialogue parsedR imgsR).scenario = parsedR.scenario ∧
     (getReviewDialogue parsedR imgsR).dialogue.length = parsedR.dialogue.length ∧
     (∀ i l, parsedR.dialogue[i]? = some l → imgsR.getD i none = none →
       (getReviewDialogue parsedR imgsR).dialogue[i]? = some l)) := by
  refine ⟨⟨rfl, rfl, attachImages_length _ _, ?_⟩,
          ⟨rfl, rfl, attachHints_length _ _, ?_⟩⟩
  · intro i c hc hi
    show (attachImages parsedE.components imgsE)[i]? = some c
    rw [attachImages_getElem?, hc, hi]
    simp [attachComponentImage_none]
  · intro i l hl hi
    show (attachHints parsedR.dialogue imgsR)[i]? = some l
    rw [attachHints_getElem?, hl, hi]
    simp [attachHintImage_none]

/-- A parsed etymology used to witness the dependent-image policy. -/
def exParsedEty : Etymology :=
  { components := [ { char := "癶", meaning := "footsteps" },
                    { char := "示", meaning := "altar" } ],
    culturalContext := "Oracle-bone origins." }

/-- Witness for C7: with the second image call failed, both parents are
delivered with the affected items exactly as parsed. -/
theorem dependent_image_failure_nonfatal_witness :
    (getEtymology exParsedEty [some "img0", none]).components[1]? =
      some { char := "示", meaning := "altar" } ∧
    (getReviewDialogue exReview [none, none, none]).dialogue[1]? = some exLine1 := by
  constructor
  · exact (dependent_image_failure_nonfatal exParsedEty [some "img0", none]
      exReview [none, none, none]).1.2.2.2 1 _ rfl rfl
  · exact (dependent_image_failure_nonfatal exParsedEty [some "img0", none]
      exReview [none, none, none]).2.2.2.2 1 _ rfl rfl

/-- Claim C8: clicking recommended entry `i` issues exactly one etymology
fetch, for that entry's word text; on success the view moves to the
etymology page with the fetched data installed; on failure the active page
stays on the recommendation page and only the loading flag is cleared. -/
theorem recommendation_click_etymology (s : AppState) (i : Nat) (w : Word) (d : Etymology)
    (hpage : s.activePage = .recommendation) (hw : s.recommendedWords[i]? = some w) :
    recommendationEntryClickCalls s i = [.etymology w.word] ∧
    (fetchEtymology s w.word (.ok d)).activePage = .etymology ∧
    (fetchEtymology s w.word (.ok d)).currentEtymology = some (w.word, d) ∧
    (fetchEtymology s w.word .err).activePage = .recommendation ∧
    fetchEtymology s w.word .err = { s with loading := false } := by
  refine ⟨?_, rfl, rfl, ?_, rfl⟩
  · simp [recommendationEntryClickCalls, hw]
  · exact hpage

/-- A recommendation page holding one fetched entry. -/
def exRecWord : Word :=
  { word := "内卷", pinyin := "Nèi juǎn", meaning := "Involution", proficiency := 20 }

/-- State fixture for the C8 witness. -/
def exRecState : AppState :=
  { initialState with recommendedWords := [exRecWord] }

/-- Witness for C8 at a concrete recommendation page. -/
theorem recommendation_click_etymology_witness :
    recommendationEntryClickCalls exRecState 0 = [.etymology "内卷"] ∧
    (fetchEtymology exRecState "内卷" .err).activePage = .recommendation := by
  constructor
  · exact (recommendation_click_etymology exRecState 0 exRecWord
      { components := [], culturalContext := "" } rfl rfl).1
  · exact (recommendation_click_etymology exRecState 0 exRecWord
      { components := [], culturalContext := "" } rfl rfl).2.2.2.1

/-- A parsed recommendation item whose proficiency is out of range. -/
def exBadWord : Word :=
  { word := "发票", pinyin := "Fā piào", meaning := "Receipt / Invoice",
    proficiency := 150 }

/-- Claim C9 is false as stated: the recommendation fetch performs no
local validation — a parsed response item with proficiency 150 is
delivered to the caller unchanged, outside [0, 100]. -/
theorem recommendation_no_range_validation :
    getVocabularyRecommendations [exBadWord] = [exBadWord] ∧
    exBadWord.proficiency = 150 ∧
    ¬ (∀ w ∈ getVocabularyRecommendations [exBadWord],
        0 ≤ w.proficiency ∧ w.proficiency ≤ 100) := by
  decide

/-- Claim C9 (amended): the recommendation fetch stores the backend's
parsed list unchanged — required fields and the proficiency range are
requested of the backend via the response schema but not enforced locally —
so every delivered item's proficiency lies in [0, 100] exactly when the
parsed response already satisfies it. -/
theorem recommendation_passthrough_range (s : AppState) (parsed : List Word)
    (h : ∀ w ∈ parsed, 0 ≤ w.proficiency ∧ w.proficiency ≤ 100) :
    (fetchRecommendations s (.ok parsed)).recommendedWords = parsed ∧
    getVocabularyRecommendations parsed = parsed ∧
    ∀ w ∈ getVocabularyRecommendations parsed,
      0 ≤ w.proficiency ∧ w.proficiency ≤ 100 :=
  ⟨rfl, rfl, h⟩

/-- Witness for the amended C9 theorem on a concrete in-range response. -/
theorem recommendation_passthrough_range_witness :
    (fetchRecommendations initialState (.ok initialVocabulary)).recommendedWords
      = initialVocabulary ∧
    ∀ w ∈ getVocabularyRecommendations initialVocabulary,
      0 ≤ w.proficiency ∧ w.proficiency ≤ 100 := by
  constructor
  · exact (recommendation_passthrough_range initialState initialVocabulary (by decide)).1
  · exact (recommendation_passthrough_range initialState initialVocabulary (by decide)).2.2

end SinoLink
